import Mathlib

/-!
Shallow embedding of `simplismart-kube.py` (a Kubernetes automation CLI).

The script is a one-shot command executor: it builds YAML manifest
documents from CLI parameters, writes them to files, and shells out to
`kubectl`/`helm`.  We model:

* YAML/JSON documents as the inductive type `Doc`;
* the external world as an `Env`: an oracle giving every shell command a
  success bit and an output string, plus the parse results of the two
  JSON queries issued by `get_deployment_status`;
* the mutable object state (`kubeconfig`, `namespace`, `helm_installed`,
  `keda_installed`, `helm_path`) as the structure `St`;
* the observable effects of `create_deployment` (manifest file writes and
  `kubectl apply` invocations) as a trace of `Event`s;
* the CLI dispatch of `main` as `mainRun`, returning the process exit
  code together with the manifest I/O trace.
-/

namespace SimpliSmart

/-- A YAML/JSON document (Python dicts keep insertion order; we keep it too). -/
inductive Doc where
  | str : String → Doc
  | int : Int → Doc
  | bool : Bool → Doc
  | list : List Doc → Doc
  | obj : List (String × Doc) → Doc

/-- `d.get k default` of a Python dict modelled as an association list. -/
def dget (cfg : List (String × Doc)) (k : String) (d : Doc) : Doc :=
  match cfg.lookup k with
  | some v => v
  | none => d

/-- Parse result of one container entry of `pod["status"]["containerStatuses"]`. -/
structure ContainerStatus where
  ready : Bool
  restartCount : Int
deriving Repr, DecidableEq

/-- Parse result of one entry of `pods["items"]`. -/
structure PodJson where
  name : String
  phase : String
  containerStatuses : Option (List ContainerStatus)
deriving Repr, DecidableEq

/-- Parse result of the `kubectl get pods ... -o json` output. -/
structure PodsJson where
  items : List PodJson
deriving Repr, DecidableEq

/-- Parse result of the `kubectl get deployment ... -o json` output
(`deployment["status"]`, with the optional fields read via `.get`). -/
structure DepStatusJson where
  readyReplicas : Option Int
  availableReplicas : Option Int
  unavailableReplicas : Option Int
  conditions : Option (List Doc)

/-- The external world: success/output of each shell command, whether the
OS is Windows (`os.name == 'nt'` wraps commands in powershell), which
filesystem paths exist, and the parse results of the two status-query
JSON outputs (`none` models a failed parse / missing required key). -/
structure Env where
  windows : Bool
  ok : String → Bool
  out : String → String
  fileExists : String → Bool
  depJson : Option DepStatusJson
  podsJson : Option PodsJson

/-- `run_command` wraps the command in powershell on Windows. -/
def wrapCmd (env : Env) (c : String) : String :=
  if env.windows then "powershell -Command \"" ++ c ++ "\"" else c

/-- Whether a `run_command` invocation succeeds (returncode 0; with
`check=True` a nonzero code raises, which callers observe as failure). -/
def runCmd (env : Env) (c : String) : Bool :=
  env.ok (wrapCmd env c)

/-- The object state of `KubernetesAutomation`. -/
structure St where
  kubeconfig : Option String
  ns : String
  helm_installed : Bool
  keda_installed : Bool
  helmPath : String

/-- The hardcoded Windows helm locations probed by `find_helm_path`. -/
def possiblePaths : List String :=
  ["C:\\Program Files\\helm.exe",
   "C:\\ProgramData\\chocolatey\\bin\\helm.exe",
   "C:\\Program Files\\Helm\\bin\\helm.exe"]

/-- `find_helm_path`: `where helm` succeeding yields `"helm"`, otherwise the
first existing hardcoded path (quoted), otherwise `"helm"`. -/
def findHelmPath (env : Env) : String :=
  if runCmd env "where helm" then "helm"
  else
    match possiblePaths.find? env.fileExists with
    | some p => "\"" ++ p ++ "\""
    | none => "helm"

/-- `KubernetesAutomation.__init__`: both install flags start `False`. -/
def initSt (env : Env) (kubeconfig : Option String) (ns : String) : St :=
  { kubeconfig := kubeconfig
    ns := ns
    helm_installed := false
    keda_installed := false
    helmPath := findHelmPath env }

/-- The ` --kubeconfig=...` suffix appended to kubectl commands. -/
def kubeSuffix (st : St) : String :=
  match st.kubeconfig with
  | some k => " --kubeconfig=" ++ k
  | none => ""

/-- `connect_to_cluster`: runs `kubectl cluster-info`. -/
def connectToCluster (env : Env) (st : St) : Bool :=
  runCmd env ("kubectl cluster-info" ++ kubeSuffix st)

/-- Python's `needle in haystack` on strings. -/
def strContains (hay needle : String) : Bool :=
  (hay.splitOn needle).length != 1

/-- `install_helm`.  Returns the success flag and the updated object state
(`helm_installed` set on success; `helm_path` refreshed after a fresh
install attempt even when the final version check then fails). -/
def installHelm (env : Env) (st : St) : Bool × St :=
  if runCmd env (st.helmPath ++ " version") then
    (true, { st with helm_installed := true })
  else
    let chocoOk := runCmd env "choco install kubernetes-helm -y"
    let installOk := if chocoOk then true else runCmd env "winget install helm.helm"
    if installOk then
      let hp := findHelmPath env
      if runCmd env (hp ++ " version") then
        (true, { st with helm_installed := true, helmPath := hp })
      else
        (false, { st with helmPath := hp })
    else
      (false, st)

/-- `install_keda`: refuses outright unless `helm_installed` is set; then
adds the repo, updates it, installs the chart and greps the keda pod list
for `keda-operator`. -/
def installKeda (env : Env) (st : St) : Bool × St :=
  if st.helm_installed then
    if runCmd env (st.helmPath ++ " repo add kedacore https://kedacore.github.io/charts") then
      if runCmd env (st.helmPath ++ " repo update") then
        let instCmd := st.helmPath ++ " install keda kedacore/keda --namespace keda --create-namespace"
          ++ (match st.kubeconfig with
              | some k => " --kubeconfig=\"" ++ k ++ "\""
              | none => "")
        if runCmd env instCmd then
          let podsCmd := "kubectl get pods -n keda"
            ++ (match st.kubeconfig with
                | some k => " --kubeconfig=\"" ++ k ++ "\""
                | none => "")
          if runCmd env podsCmd then
            if strContains (env.out (wrapCmd env podsCmd)) "keda-operator" then
              (true, { st with keda_installed := true })
            else
              (false, st)
          else
            (false, st)
        else
          (false, st)
      else
        (false, st)
    else
      (false, st)
  else
    (false, st)

/-- The workload (`Deployment`) document built at the top of
`create_deployment`. -/
def buildDeployment (ns name image tag : String) (replicas : Int)
    (cpuReq cpuLim memReq memLim : String) (ports : List Int) : Doc :=
  .obj
    [("apiVersion", .str "apps/v1"),
     ("kind", .str "Deployment"),
     ("metadata", .obj [("name", .str name), ("namespace", .str ns)]),
     ("spec", .obj
       [("replicas", .int replicas),
        ("selector", .obj [("matchLabels", .obj [("app", .str name)])]),
        ("template", .obj
          [("metadata", .obj [("labels", .obj [("app", .str name)])]),
           ("spec", .obj
             [("containers", .list
               [.obj
                 [("name", .str name),
                  ("image", .str (image ++ ":" ++ tag)),
                  ("ports", .list (ports.map (fun p => .obj [("containerPort", .int p)]))),
                  ("resources", .obj
                    [("requests", .obj [("cpu", .str cpuReq), ("memory", .str memReq)]),
                     ("limits", .obj [("cpu", .str cpuLim), ("memory", .str memLim)])])]])])])])]

/-- The network-exposure (`Service`) document. -/
def buildService (ns name : String) (ports : List Int) : Doc :=
  .obj
    [("apiVersion", .str "v1"),
     ("kind", .str "Service"),
     ("metadata", .obj [("name", .str (name ++ "-service")), ("namespace", .str ns)]),
     ("spec", .obj
       [("selector", .obj [("app", .str name)]),
        ("ports", .list (ports.map (fun p => .obj [("port", .int p), ("targetPort", .int p)]))),
        ("type", .str "ClusterIP")])]

/-- The autoscaling-policy (`ScaledObject`) document; replica bounds and
triggers come from `keda_config.get` with defaults 1, 10 and `[]`. -/
def buildScaledObject (ns name : String) (kc : List (String × Doc)) : Doc :=
  .obj
    [("apiVersion", .str "keda.sh/v1alpha1"),
     ("kind", .str "ScaledObject"),
     ("metadata", .obj [("name", .str (name ++ "-scaled")), ("namespace", .str ns)]),
     ("spec", .obj
       [("scaleTargetRef", .obj
          [("apiVersion", .str "apps/v1"),
           ("kind", .str "Deployment"),
           ("name", .str name)]),
        ("minReplicaCount", dget kc "min_replicas" (.int 1)),
        ("maxReplicaCount", dget kc "max_replicas" (.int 10)),
        ("triggers", dget kc "triggers" (.list []))])]

/-- A manifest I/O event of `create_deployment`: a YAML file write, or a
`kubectl apply -f <file>` invocation with its outcome. -/
inductive Event where
  | write : String → Doc → Event
  | apply : String → Bool → Event

/-- The `kubectl apply -f <file>` command string. -/
def applyCmdStr (st : St) (file : String) : String :=
  "kubectl apply -f " ++ file ++ kubeSuffix st

/-- `create_deployment`.  `ports0 = none` models the Python default
(`None`, replaced by `[80]`); likewise `kc0 = none` models
`keda_config=None`, replaced by `{}`.  Any failing `kubectl apply` raises,
is caught by the enclosing `try`, and yields `False` with all later steps
skipped; the YAML file of a step is written before its apply runs. -/
def createDeployment (env : Env) (st : St) (name image tag : String)
    (replicas : Int) (cpuReq cpuLim memReq memLim : String)
    (ports0 : Option (List Int)) (kc0 : Option (List (String × Doc))) :
    Bool × List Event :=
  let ports := ports0.getD [80]
  let kc := kc0.getD []
  let depFile := name ++ "-deployment.yaml"
  let depDoc := buildDeployment st.ns name image tag replicas cpuReq cpuLim memReq memLim ports
  let ok1 := runCmd env (applyCmdStr st depFile)
  let tr1 := [Event.write depFile depDoc, Event.apply depFile ok1]
  if ok1 then
    let step2 :=
      if ports.isEmpty then (true, tr1)
      else
        let svcFile := name ++ "-service.yaml"
        let svcDoc := buildService st.ns name ports
        let ok2 := runCmd env (applyCmdStr st svcFile)
        (ok2, tr1 ++ [Event.write svcFile svcDoc, Event.apply svcFile ok2])
    if step2.1 then
      if kc.isEmpty || !st.keda_installed then (true, step2.2)
      else
        let soFile := name ++ "-scaledobject.yaml"
        let soDoc := buildScaledObject st.ns name kc
        let ok3 := runCmd env (applyCmdStr st soFile)
        (ok3, step2.2 ++ [Event.write soFile soDoc, Event.apply soFile ok3])
    else
      (false, step2.2)
  else
    (false, tr1)

/-- The file writes of a trace. -/
def writesOf (tr : List Event) : List (String × Doc) :=
  tr.filterMap fun e =>
    match e with
    | .write f d => some (f, d)
    | .apply _ _ => none

/-- The `kubectl apply` invocations of a trace, with their outcomes. -/
def appliesOf (tr : List Event) : List (String × Bool) :=
  tr.filterMap fun e =>
    match e with
    | .write _ _ => none
    | .apply f ok => some (f, ok)

/-- The manifest files `create_deployment` tries to apply, gated exactly as
in the source: the service only when `ports` is nonempty, the scaled
object only when `keda_config` is nonempty and `keda_installed` is set. -/
def gatedFiles (st : St) (name : String) (ports : List Int)
    (kc : List (String × Doc)) : List String :=
  [name ++ "-deployment.yaml"]
    ++ (if ports.isEmpty then [] else [name ++ "-service.yaml"])
    ++ (if kc.isEmpty || !st.keda_installed then [] else [name ++ "-scaledobject.yaml"])

/-- Apply the files in order, short-circuiting after the first failure. -/
def applyTrace (env : Env) (st : St) : List String → List (String × Bool)
  | [] => []
  | f :: fs =>
    let ok := runCmd env (applyCmdStr st f)
    (f, ok) :: (if ok then applyTrace env st fs else [])

/-- Per-pod record built by `get_deployment_status`: readiness is the AND
over the pod's container statuses, restarts their sum. -/
structure PodStatus where
  name : String
  status : String
  ready : Bool
  restarts : Int
deriving Repr, DecidableEq

/-- The fold of one pod's JSON into its status record (lines 312–317). -/
def podStatusOf (p : PodJson) : PodStatus :=
  { name := p.name
    status := p.phase
    ready := (p.containerStatuses.getD []).all (fun c => c.ready)
    restarts := ((p.containerStatuses.getD []).map (fun c => c.restartCount)).sum }

/-- The summary record returned by `get_deployment_status`. -/
structure StatusRes where
  name : String
  ready_replicas : Int
  available_replicas : Int
  unavailable_replicas : Int
  conditions : List Doc
  pods : List PodStatus

/-- The `kubectl get deployment ... -o json` command of the status query. -/
def depQueryCmd (st : St) (name : String) : String :=
  "kubectl get deployment " ++ name ++ " -n " ++ st.ns ++ " -o json" ++ kubeSuffix st

/-- The `kubectl get pods ... -o json` command of the status query. -/
def podQueryCmd (st : St) (name : String) : String :=
  "kubectl get pods -n " ++ st.ns ++ " -l app=" ++ name ++ " -o json" ++ kubeSuffix st

/-- `get_deployment_status`: two queries, two JSON parses; any command
failure or parse failure raises, is caught, and yields `None`. -/
def getDeploymentStatus (env : Env) (st : St) (name : String) : Option StatusRes :=
  if runCmd env (depQueryCmd st name) then
    match env.depJson with
    | none => none
    | some d =>
      if runCmd env (podQueryCmd st name) then
        match env.podsJson with
        | none => none
        | some pj =>
          some
            { name := name
              ready_replicas := d.readyReplicas.getD 0
              available_replicas := d.availableReplicas.getD 0
              unavailable_replicas := d.unavailableReplicas.getD 0
              conditions := d.conditions.getD []
              pods := pj.items.map podStatusOf }
      else none
  else none

/-- A CLI invocation.  For `deploy`, the last argument models
`--keda-config`: `none` = flag absent (empty config), `some none` = file
given but unreadable/unparseable, `some (some kc)` = parsed JSON dict. -/
inductive Cmd where
  | connect : Cmd
  | install : Bool → Bool → Cmd
  | deploy : String → String → String → Int → String → String → String → String →
      List Int → Option (Option (List (String × Doc))) → Cmd
  | status : String → Cmd

/-- `main`: constructs the automation object, dispatches on the
subcommand, and returns the process exit code together with the manifest
I/O trace (only `create_deployment` touches manifest files). -/
def mainRun (env : Env) (kubeconfig : Option String) (ns : String) (c : Cmd) :
    Nat × List Event :=
  let st := initSt env kubeconfig ns
  match c with
  | .connect => (if connectToCluster env st then 0 else 1, [])
  | .install helm keda =>
    if helm then
      let r1 := installHelm env st
      if r1.1 then
        if keda then (if (installKeda env r1.2).1 then 0 else 1, []) else (0, [])
      else (1, [])
    else
      if keda then (if (installKeda env st).1 then 0 else 1, []) else (0, [])
  | .deploy name image tag replicas cpuReq cpuLim memReq memLim ports kcArg =>
    match kcArg with
    | some none => (1, [])
    | some (some kc) =>
      let r := createDeployment env st name image tag replicas cpuReq cpuLim memReq memLim
        (some ports) (some kc)
      (if r.1 then 0 else 1, r.2)
    | none =>
      let r := createDeployment env st name image tag replicas cpuReq cpuLim memReq memLim
        (some ports) (some [])
      (if r.1 then 0 else 1, r.2)
  | .status name => (if (getDeploymentStatus env st name).isSome then 0 else 1, [])

/-- A cluster whose connectivity check fails: every `kubectl` command
fails (and with it the connectivity check `kubectl cluster-info`). -/
def clusterDown (env : Env) : Prop :=
  ∀ rest : String, runCmd env ("kubectl" ++ rest) = false

/-- The `kind` field of a document. -/
def kindOf (d : Doc) : Option Doc :=
  match d with
  | .obj fs => fs.lookup "kind"
  | _ => none

/-- A field of the `spec` object of a document. -/
def specField (d : Doc) (k : String) : Option Doc :=
  match d with
  | .obj fs =>
    match fs.lookup "spec" with
    | some (.obj sf) => sf.lookup k
    | _ => none
  | _ => none

/-- An environment where every command succeeds and the two status-query
outputs parse to trivial records. -/
def envT : Env :=
  { windows := false
    ok := fun _ => true
    out := fun _ => ""
    fileExists := fun _ => false
    depJson := some ⟨none, none, none, none⟩
    podsJson := some ⟨[]⟩ }

/-- An environment where every command fails: in particular the cluster is
unreachable. -/
def envDown : Env :=
  { windows := false
    ok := fun _ => false
    out := fun _ => ""
    fileExists := fun _ => false
    depJson := none
    podsJson := none }

/-- An environment where exactly the `helm version` command succeeds: the
cluster is unreachable but helm is already installed. -/
def envHelmUp : Env :=
  { windows := false
    ok := fun c => c == "helm version"
    out := fun _ => ""
    fileExists := fun _ => false
    depJson := none
    podsJson := none }

/-- Pod list with a single pod with one ready container and one pod with
one unready container. -/
def podsC2 : PodsJson :=
  ⟨[⟨"p1", "Running", some [⟨true, 1⟩]⟩, ⟨"p2", "Running", some [⟨false, 2⟩]⟩]⟩

/-- Environment whose pod query returns `podsC2`. -/
def envC2 : Env :=
  { windows := false
    ok := fun _ => true
    out := fun _ => ""
    fileExists := fun _ => false
    depJson := some ⟨none, none, none, none⟩
    podsJson := some podsC2 }

/-- The status record `get_deployment_status` computes over `envC2`. -/
def statusResC2 : StatusRes :=
  { name := "myapp"
    ready_replicas := 0
    available_replicas := 0
    unavailable_replicas := 0
    conditions := []
    pods := [⟨"p1", "Running", true, 1⟩, ⟨"p2", "Running", false, 2⟩] }

/-- Environment whose pod query returns one pod with no container
statuses (e.g. not yet scheduled). -/
def envC9 : Env :=
  { windows := false
    ok := fun _ => true
    out := fun _ => ""
    fileExists := fun _ => false
    depJson := some ⟨none, none, none, none⟩
    podsJson := some ⟨[⟨"p1", "Pending", none⟩]⟩ }

/-- The status record `get_deployment_status` computes over `envC9`. -/
def statusResC9 : StatusRes :=
  { name := "myapp"
    ready_replicas := 0
    available_replicas := 0
    unavailable_replicas := 0
    conditions := []
    pods := [⟨"p1", "Pending", true, 0⟩] }

/-- The claim that a single readiness flag aggregates over all matched
pods and a single restart count sums over all matched pods, read against
the per-pod records the aggregator actually returns. -/
def aggClaim (pj : PodsJson) (r : StatusRes) : Prop :=
  (∀ p ∈ r.pods,
    (p.ready = true ↔ ∀ q ∈ pj.items, ∀ c ∈ q.containerStatuses.getD [], c.ready = true)) ∧
  (∀ p ∈ r.pods,
    p.restarts = (pj.items.map (fun q => ((q.containerStatuses.getD []).map
      (fun c => c.restartCount)).sum)).sum)

theorem string_append_right_inj (a b c : String) (h : a ++ b = a ++ c) : b = c := by
  have hd : (a ++ b).data = (a ++ c).data := by rw [h]
  rw [String.data_append, String.data_append] at hd
  have h2 := List.append_cancel_left hd
  cases b; cases c
  exact congrArg String.mk h2

theorem dep_ne_svc (name : String) :
    name ++ "-deployment.yaml" ≠ name ++ "-service.yaml" := fun h =>
  absurd (string_append_right_inj _ _ _ h) (by decide)

theorem dep_ne_so (name : String) :
    name ++ "-deployment.yaml" ≠ name ++ "-scaledobject.yaml" := fun h =>
  absurd (string_append_right_inj _ _ _ h) (by decide)

theorem svc_ne_so (name : String) :
    name ++ "-service.yaml" ≠ name ++ "-scaledobject.yaml" := fun h =>
  absurd (string_append_right_inj _ _ _ h) (by decide)

/-- Inversion: a `some` result of `get_deployment_status` means both
queries succeeded, both parses succeeded, and the record is the fold of
the parsed data. -/
theorem getDeploymentStatus_some (env : Env) (st : St) (name : String) (r : StatusRes)
    (hr : getDeploymentStatus env st name = some r) :
    ∃ d pj, env.depJson = some d ∧ env.podsJson = some pj ∧
      r = { name := name
            ready_replicas := d.readyReplicas.getD 0
            available_replicas := d.availableReplicas.getD 0
            unavailable_replicas := d.unavailableReplicas.getD 0
            conditions := d.conditions.getD []
            pods := pj.items.map podStatusOf } := by
  unfold getDeploymentStatus at hr
  split at hr
  · split at hr
    · cases hr
    · rename_i d hd
      split at hr
      · split at hr
        · cases hr
        · rename_i pj hp
          exact ⟨d, pj, hd, hp, (Option.some.inj hr).symm⟩
      · cases hr
  · cases hr

/-- C10: an `install` invocation requesting KEDA without also requesting
Helm always exits with code 1, because `helm_installed` is initialized
`False` at construction and only `install_helm` (run for `--helm`) can
set it, so `install_keda` refuses immediately. -/
theorem install_keda_without_helm_fails (env : Env) (kubeconfig : Option String)
    (ns : String) :
    (mainRun env kubeconfig ns (Cmd.install false true)).1 = 1 := by
  simp [mainRun, installKeda, initSt]

/-- C6: a supplied autoscaling policy without explicit replica bounds
yields a ScaledObject document with `minReplicaCount = 1` and
`maxReplicaCount = 10`. -/
theorem scaledobject_default_bounds (ns name : String) (kc : List (String × Doc))
    (_hne : kc ≠ [])
    (hmin : kc.lookup "min_replicas" = none)
    (hmax : kc.lookup "max_replicas" = none) :
    specField (buildScaledObject ns name kc) "minReplicaCount" = some (Doc.int 1) ∧
    specField (buildScaledObject ns name kc) "maxReplicaCount" = some (Doc.int 10) := by
  have h1 : specField (buildScaledObject ns name kc) "minReplicaCount"
      = some (dget kc "min_replicas" (Doc.int 1)) := rfl
  have h2 : specField (buildScaledObject ns name kc) "maxReplicaCount"
      = some (dget kc "max_replicas" (Doc.int 10)) := rfl
  rw [h1, h2]
  unfold dget
  rw [hmin, hmax]
  exact ⟨rfl, rfl⟩

/-- Witness for C6 at a concrete policy that only sets triggers. -/
theorem scaledobject_default_bounds_witness :
    ([("triggers", Doc.list [])] : List (String × Doc)) ≠ [] ∧
    ([("triggers", Doc.list [])] : List (String × Doc)).lookup "min_replicas" = none ∧
    ([("triggers", Doc.list [])] : List (String × Doc)).lookup "max_replicas" = none ∧
    (specField (buildScaledObject "default" "myapp" [("triggers", Doc.list [])])
        "minReplicaCount" = some (Doc.int 1) ∧
     specField (buildScaledObject "default" "myapp" [("triggers", Doc.list [])])
        "maxReplicaCount" = some (Doc.int 10)) :=
  ⟨by simp, rfl, rfl,
   scaledobject_default_bounds "default" "myapp" [("triggers", Doc.list [])]
     (by simp) rfl rfl⟩

/-- C8: `get_deployment_status` returns `None` whenever either query
command fails or either JSON response fails to parse. -/
theorem status_none_on_failure (env : Env) (st : St) (name : String)
    (h : runCmd env (depQueryCmd st name) = false ∨ env.depJson = none ∨
         runCmd env (podQueryCmd st name) = false ∨ env.podsJson = none) :
    getDeploymentStatus env st name = none := by
  cases hres : getDeploymentStatus env st name with
  | none => rfl
  | some r =>
    obtain ⟨d, pj, hd, hp, -⟩ := getDeploymentStatus_some env st name r hres
    unfold getDeploymentStatus at hres
    rcases h with h | h | h | h
    · rw [if_neg (by simp [h])] at hres; cases hres
    · rw [hd] at h; cases h
    · rw [hd] at hres
      split at hres
      · simp only [] at hres
        rw [if_neg (by simp [h])] at hres
        cases hres
      · cases hres
    · rw [hp] at h; cases h

/-- Witness for C8: with every command failing, the status query of a
fresh automation object is `None`. -/
theorem status_none_on_failure_witness :
    runCmd envDown (depQueryCmd (initSt envDown none "default") "myapp") = false ∧
    getDeploymentStatus envDown (initSt envDown none "default") "myapp" = none :=
  ⟨rfl, status_none_on_failure envDown (initSt envDown none "default") "myapp" (Or.inl rfl)⟩

/-- C9: a matched pod with an empty container-status list is reported
ready with zero restarts (AND over an empty list, sum over an empty
list). -/
theorem empty_pod_reported_ready (env : Env) (st : St) (name : String)
    (r : StatusRes) (pj : PodsJson)
    (hr : getDeploymentStatus env st name = some r)
    (hpj : env.podsJson = some pj)
    (i : Nat) (h2 : i < pj.items.length) (h1 : i < r.pods.length)
    (hcs : (pj.items.get ⟨i, h2⟩).containerStatuses.getD [] = []) :
    (r.pods.get ⟨i, h1⟩).ready = true ∧ (r.pods.get ⟨i, h1⟩).restarts = 0 := by
  obtain ⟨d, pj2, hd, hp2, hrec⟩ := getDeploymentStatus_some env st name r hr
  rw [hpj] at hp2
  obtain rfl := Option.some.inj hp2
  subst hrec
  simp only [List.get_eq_getElem, List.getElem_map]
  have hget : pj.items[i] = pj.items.get ⟨i, h2⟩ := by
    simp [List.get_eq_getElem]
  rw [hget]
  unfold podStatusOf
  rw [hcs]
  exact ⟨rfl, rfl⟩

/-- Witness for C9 at a pod whose `containerStatuses` key is absent. -/
theorem empty_pod_reported_ready_witness :
    getDeploymentStatus envC9 (initSt envC9 none "default") "myapp" = some statusResC9 ∧
    envC9.podsJson = some ⟨[⟨"p1", "Pending", none⟩]⟩ ∧
    ((statusResC9.pods.get ⟨0, by decide⟩).ready = true ∧
     (statusResC9.pods.get ⟨0, by decide⟩).restarts = 0) :=
  ⟨rfl, rfl,
   empty_pod_reported_ready envC9 (initSt envC9 none "default") "myapp"
     statusResC9 ⟨[⟨"p1", "Pending", none⟩]⟩ rfl rfl 0 (by decide) (by decide) (by decide)⟩

/-- C2 counterexample: with two matched pods, one fully ready (1 restart)
and one with an unready container (2 restarts), the aggregator reports
per-pod flags and per-pod restart counts, so no reported readiness flag
is an AND across all pods and no reported restart count is the sum
across all pods: pod `p1` is reported ready although a container of `p2`
is not ready, and is reported with 1 restart although the cross-pod sum
is 3. -/
theorem agg_readiness_counterexample :
    getDeploymentStatus envC2 (initSt envC2 none "default") "myapp" = some statusResC2 ∧
    envC2.podsJson = some podsC2 ∧
    ¬ aggClaim podsC2 statusResC2 :=
  ⟨rfl, rfl, by
    rintro ⟨hready, -⟩
    have hp1 : (⟨"p1", "Running", true, 1⟩ : PodStatus) ∈ statusResC2.pods := by decide
    have := (hready _ hp1).mp rfl
    have hp2 : (⟨"p2", "Running", some [⟨false, 2⟩]⟩ : PodJson) ∈ podsC2.items := by decide
    have := this _ hp2 ⟨false, 2⟩ (by decide)
    cases this⟩

/-- C2 amended: the aggregator folds container statuses per pod: each
reported pod record's readiness flag is the AND of that pod's container
ready flags and its restart count is the sum of that pod's container
restart counts. -/
theorem per_pod_readiness_fold (env : Env) (st : St) (name : String)
    (r : StatusRes)
    (hr : getDeploymentStatus env st name = some r) :
    ∃ pj, env.podsJson = some pj ∧ r.pods.length = pj.items.length ∧
      ∀ i (h1 : i < r.pods.length) (h2 : i < pj.items.length),
        ((r.pods.get ⟨i, h1⟩).ready = true ↔
          ∀ c ∈ (pj.items.get ⟨i, h2⟩).containerStatuses.getD [], c.ready = true) ∧
        (r.pods.get ⟨i, h1⟩).restarts =
          (((pj.items.get ⟨i, h2⟩).containerStatuses.getD []).map
            (fun c => c.restartCount)).sum := by
  obtain ⟨d, pj, hd, hp, hrec⟩ := getDeploymentStatus_some env st name r hr
  subst hrec
  refine ⟨pj, hp, by simp, ?_⟩
  intro i h1 h2
  simp only [List.get_eq_getElem, List.getElem_map]
  unfold podStatusOf
  constructor
  · simp [List.all_eq_true]
  · rfl

/-- Witness for C2 (amended) over the two-pod environment. -/
theorem per_pod_readiness_fold_witness :
    ∃ pj, envC2.podsJson = some pj ∧ statusResC2.pods.length = pj.items.length ∧
      ∀ i (h1 : i < statusResC2.pods.length) (h2 : i < pj.items.length),
        ((statusResC2.pods.get ⟨i, h1⟩).ready = true ↔
          ∀ c ∈ (pj.items.get ⟨i, h2⟩).containerStatuses.getD [], c.ready = true) ∧
        (statusResC2.pods.get ⟨i, h1⟩).restarts =
          (((pj.items.get ⟨i, h2⟩).containerStatuses.getD []).map
            (fun c => c.restartCount)).sum :=
  per_pod_readiness_fold envC2 (initSt envC2 none "default") "myapp" statusResC2 rfl

theorem kindOf_buildDeployment (ns name image tag : String) (replicas : Int)
    (cpuReq cpuLim memReq memLim : String) (ports : List Int) :
    kindOf (buildDeployment ns name image tag replicas cpuReq cpuLim memReq memLim ports)
      = some (Doc.str "Deployment") := rfl

theorem kindOf_buildService (ns name : String) (ports : List Int) :
    kindOf (buildService ns name ports) = some (Doc.str "Service") := rfl

theorem kindOf_buildScaledObject (ns name : String) (kc : List (String × Doc)) :
    kindOf (buildScaledObject ns name kc) = some (Doc.str "ScaledObject") := rfl

set_option maxHeartbeats 2000000 in
/-- Every file write of `create_deployment` is one of the three manifest
documents; the service one only when the port list is nonempty, the
scaled object only when the config is nonempty and `keda_installed` is
set. -/
theorem writes_mem_cases (env : Env) (st : St) (name image tag : String)
    (replicas : Int) (cpuReq cpuLim memReq memLim : String)
    (ports0 : Option (List Int)) (kc0 : Option (List (String × Doc)))
    (f : String) (d : Doc)
    (h : (f, d) ∈ writesOf (createDeployment env st name image tag replicas
        cpuReq cpuLim memReq memLim ports0 kc0).2) :
    (f = name ++ "-deployment.yaml" ∧
      d = buildDeployment st.ns name image tag replicas cpuReq cpuLim memReq memLim
        (ports0.getD [80])) ∨
    (f = name ++ "-service.yaml" ∧ d = buildService st.ns name (ports0.getD [80]) ∧
      ¬ (ports0.getD [80]).isEmpty = true) ∨
    (f = name ++ "-scaledobject.yaml" ∧ d = buildScaledObject st.ns name (kc0.getD []) ∧
      ¬ ((kc0.getD []).isEmpty || !st.keda_installed) = true) := by
  by_cases h1 : runCmd env (applyCmdStr st (name ++ "-deployment.yaml")) <;>
  by_cases hp : (ports0.getD [80]).isEmpty <;>
  by_cases hq : ((kc0.getD []).isEmpty || !st.keda_installed) <;>
  by_cases h2 : runCmd env (applyCmdStr st (name ++ "-service.yaml")) <;>
  by_cases h3 : runCmd env (applyCmdStr st (name ++ "-scaledobject.yaml")) <;>
  simp [createDeployment, writesOf, h1, hp, hq, h2, h3] at h <;>
  tauto

theorem writesOf_envT_noports :
    writesOf (createDeployment envT (initSt envT none "default") "myapp" "nginx" "latest" 1
      "100m" "500m" "128Mi" "512Mi" (some []) (some [])).2
    = [("myapp-deployment.yaml",
        buildDeployment "default" "myapp" "nginx" "latest" 1 "100m" "500m" "128Mi" "512Mi" [])] :=
  rfl

theorem writesOf_envT_ports80 :
    writesOf (createDeployment envT (initSt envT none "default") "myapp" "nginx" "latest" 1
      "100m" "500m" "128Mi" "512Mi" (some [80]) (some [])).2
    = [("myapp-deployment.yaml",
        buildDeployment "default" "myapp" "nginx" "latest" 1 "100m" "500m" "128Mi" "512Mi" [80]),
       ("myapp-service.yaml", buildService "default" "myapp" [80])] :=
  rfl

/-- C4: with an empty port list, `create_deployment` writes no Service
document (no document written has kind `Service`). -/
theorem no_service_doc_for_empty_ports (env : Env) (st : St) (name image tag : String)
    (replicas : Int) (cpuReq cpuLim memReq memLim : String)
    (kc0 : Option (List (String × Doc))) (f : String) (d : Doc)
    (h : (f, d) ∈ writesOf (createDeployment env st name image tag replicas
        cpuReq cpuLim memReq memLim (some []) kc0).2) :
    kindOf d ≠ some (Doc.str "Service") := by
  rcases writes_mem_cases env st name image tag replicas cpuReq cpuLim memReq memLim
      (some []) kc0 f d h with ⟨-, rfl⟩ | ⟨-, -, hp⟩ | ⟨-, rfl, -⟩
  · simp [kindOf_buildDeployment]
  · exact absurd rfl hp
  · simp [kindOf_buildScaledObject]

/-- Witness for C4: with every command succeeding and no ports, only the
workload manifest is written, and it is not a Service document. -/
theorem no_service_doc_for_empty_ports_witness :
    ("myapp-deployment.yaml",
       buildDeployment "default" "myapp" "nginx" "latest" 1 "100m" "500m" "128Mi" "512Mi" [])
      ∈ writesOf (createDeployment envT (initSt envT none "default") "myapp" "nginx" "latest" 1
        "100m" "500m" "128Mi" "512Mi" (some []) (some [])).2 ∧
    kindOf (buildDeployment "default" "myapp" "nginx" "latest" 1 "100m" "500m" "128Mi" "512Mi" [])
      ≠ some (Doc.str "Service") :=
  ⟨by rw [writesOf_envT_noports]; exact List.mem_singleton.mpr rfl,
   no_service_doc_for_empty_ports envT (initSt envT none "default") "myapp" "nginx" "latest" 1
     "100m" "500m" "128Mi" "512Mi" (some []) "myapp-deployment.yaml" _
     (by rw [writesOf_envT_noports]; exact List.mem_singleton.mpr rfl)⟩

/-- C5: with no autoscaling policy supplied (`keda_config` absent or the
empty dict), `create_deployment` writes no ScaledObject document,
whatever `keda_installed` is. -/
theorem no_scaledobject_without_policy (env : Env) (st : St) (name image tag : String)
    (replicas : Int) (cpuReq cpuLim memReq memLim : String)
    (ports0 : Option (List Int)) (kc0 : Option (List (String × Doc)))
    (hkc : kc0 = none ∨ kc0 = some []) (f : String) (d : Doc)
    (h : (f, d) ∈ writesOf (createDeployment env st name image tag replicas
        cpuReq cpuLim memReq memLim ports0 kc0).2) :
    kindOf d ≠ some (Doc.str "ScaledObject") := by
  rcases writes_mem_cases env st name image tag replicas cpuReq cpuLim memReq memLim
      ports0 kc0 f d h with ⟨-, rfl⟩ | ⟨-, rfl, -⟩ | ⟨-, -, hq⟩
  · simp [kindOf_buildDeployment]
  · simp [kindOf_buildService]
  · rcases hkc with rfl | rfl
    · exact absurd (by simp) hq
    · exact absurd (by simp) hq

/-- Witness for C5: with ports `[80]`, an absent policy and every command
succeeding, the Service document written is not a ScaledObject. -/
theorem no_scaledobject_without_policy_witness :
    ("myapp-service.yaml", buildService "default" "myapp" [80])
      ∈ writesOf (createDeployment envT (initSt envT none "default") "myapp" "nginx" "latest" 1
        "100m" "500m" "128Mi" "512Mi" (some [80]) (some [])).2 ∧
    kindOf (buildService "default" "myapp" [80]) ≠ some (Doc.str "ScaledObject") :=
  ⟨by rw [writesOf_envT_ports80]; exact List.mem_cons_of_mem _ (List.mem_singleton.mpr rfl),
   no_scaledobject_without_policy envT (initSt envT none "default") "myapp" "nginx" "latest" 1
     "100m" "500m" "128Mi" "512Mi" (some [80]) (some []) (Or.inr rfl) "myapp-service.yaml" _
     (by rw [writesOf_envT_ports80]; exact List.mem_cons_of_mem _ (List.mem_singleton.mpr rfl))⟩

/-- C7: the manifest documents are a deterministic function of the
deployment parameters: two runs with identical parameters (under any two
environments) that write the same file write the same document. -/
theorem manifest_writes_deterministic (env1 env2 : Env) (st : St) (name image tag : String)
    (replicas : Int) (cpuReq cpuLim memReq memLim : String)
    (ports0 : Option (List Int)) (kc0 : Option (List (String × Doc)))
    (f : String) (d1 d2 : Doc)
    (hm1 : (f, d1) ∈ writesOf (createDeployment env1 st name image tag replicas
        cpuReq cpuLim memReq memLim ports0 kc0).2)
    (hm2 : (f, d2) ∈ writesOf (createDeployment env2 st name image tag replicas
        cpuReq cpuLim memReq memLim ports0 kc0).2) :
    d1 = d2 := by
  rcases writes_mem_cases env1 st name image tag replicas cpuReq cpuLim memReq memLim
      ports0 kc0 f d1 hm1 with ⟨ha, rfl⟩ | ⟨ha, rfl, -⟩ | ⟨ha, rfl, -⟩ <;>
    rcases writes_mem_cases env2 st name image tag replicas cpuReq cpuLim memReq memLim
        ports0 kc0 f d2 hm2 with ⟨hb, h2d⟩ | ⟨hb, h2d, -⟩ | ⟨hb, h2d, -⟩
  · exact h2d.symm
  · exact absurd (ha.symm.trans hb) (dep_ne_svc name)
  · exact absurd (ha.symm.trans hb) (dep_ne_so name)
  · exact absurd (hb.symm.trans ha) (dep_ne_svc name)
  · exact h2d.symm
  · exact absurd (ha.symm.trans hb) (svc_ne_so name)
  · exact absurd (hb.symm.trans ha) (dep_ne_so name)
  · exact absurd (hb.symm.trans ha) (svc_ne_so name)
  · exact h2d.symm

/-- Witness for C7: one all-success run and one cluster-down run with the
same parameters both write the workload manifest with the same content. -/
theorem manifest_writes_deterministic_witness :
    ("myapp-deployment.yaml",
       buildDeployment "default" "myapp" "nginx" "latest" 1 "100m" "500m" "128Mi" "512Mi" [])
      ∈ writesOf (createDeployment envT (initSt envT none "default") "myapp" "nginx" "latest" 1
        "100m" "500m" "128Mi" "512Mi" (some []) (some [])).2 ∧
    ("myapp-deployment.yaml",
       buildDeployment "default" "myapp" "nginx" "latest" 1 "100m" "500m" "128Mi" "512Mi" [])
      ∈ writesOf (createDeployment envDown (initSt envT none "default") "myapp" "nginx" "latest" 1
        "100m" "500m" "128Mi" "512Mi" (some []) (some [])).2 ∧
    buildDeployment "default" "myapp" "nginx" "latest" 1 "100m" "500m" "128Mi" "512Mi" []
      = buildDeployment "default" "myapp" "nginx" "latest" 1 "100m" "500m" "128Mi" "512Mi" [] :=
  ⟨by rw [writesOf_envT_noports]; exact List.mem_singleton.mpr rfl,
   by
     rw [show writesOf (createDeployment envDown (initSt envT none "default") "myapp" "nginx"
         "latest" 1 "100m" "500m" "128Mi" "512Mi" (some []) (some [])).2
       = [("myapp-deployment.yaml",
           buildDeployment "default" "myapp" "nginx" "latest" 1 "100m" "500m" "128Mi" "512Mi" [])]
       from rfl]
     exact List.mem_singleton.mpr rfl,
   manifest_writes_deterministic envT envDown (initSt envT none "default") "myapp" "nginx"
     "latest" 1 "100m" "500m" "128Mi" "512Mi" (some []) (some []) "myapp-deployment.yaml" _ _
     (by rw [writesOf_envT_noports]; exact List.mem_singleton.mpr rfl)
     (by
       rw [show writesOf (createDeployment envDown (initSt envT none "default") "myapp" "nginx"
           "latest" 1 "100m" "500m" "128Mi" "512Mi" (some []) (some [])).2
         = [("myapp-deployment.yaml",
             buildDeployment "default" "myapp" "nginx" "latest" 1 "100m" "500m" "128Mi" "512Mi" [])]
         from rfl]
       exact List.mem_singleton.mpr rfl)⟩

set_option maxHeartbeats 4000000 in
/-- C3: the manifests are applied in the order workload → service →
scaled object (each gated as in the source), the first failing apply
short-circuits all remaining steps, the action succeeds iff every gated
apply succeeds, and `main` turns a failed action into exit code 1. -/
theorem deploy_apply_order (env : Env) (st : St) (kubeconfig : Option String)
    (ns name image tag : String) (replicas : Int) (cpuReq cpuLim memReq memLim : String)
    (ports : List Int) (kc : List (String × Doc)) :
    appliesOf (createDeployment env st name image tag replicas cpuReq cpuLim memReq memLim
        (some ports) (some kc)).2
      = applyTrace env st (gatedFiles st name ports kc) ∧
    ((createDeployment env st name image tag replicas cpuReq cpuLim memReq memLim
        (some ports) (some kc)).1 = true ↔
      ∀ f ∈ gatedFiles st name ports kc, runCmd env (applyCmdStr st f) = true) ∧
    (mainRun env kubeconfig ns (Cmd.deploy name image tag replicas cpuReq cpuLim memReq memLim
        ports (some (some kc)))).1
      = (if (createDeployment env (initSt env kubeconfig ns) name image tag replicas
            cpuReq cpuLim memReq memLim (some ports) (some kc)).1 then 0 else 1) := by
  refine ⟨?_, ?_, rfl⟩ <;>
    (by_cases hp : ports.isEmpty <;>
     by_cases hq : (kc.isEmpty || !st.keda_installed) <;>
     by_cases h1 : runCmd env (applyCmdStr st (name ++ "-deployment.yaml")) <;>
     by_cases h2 : runCmd env (applyCmdStr st (name ++ "-service.yaml")) <;>
     by_cases h3 : runCmd env (applyCmdStr st (name ++ "-scaledobject.yaml")) <;>
     simp [createDeployment, appliesOf, applyTrace, gatedFiles, hp, hq, h1, h2, h3])

theorem runCmd_down_connect (env : Env) (h : clusterDown env) (st : St) :
    runCmd env ("kubectl cluster-info" ++ kubeSuffix st) = false := by
  have e : "kubectl cluster-info" ++ kubeSuffix st
      = "kubectl" ++ (" cluster-info" ++ kubeSuffix st) := by
    rw [show ("kubectl cluster-info" : String) = "kubectl" ++ " cluster-info" from by decide,
      String.append_assoc]
  rw [e]; exact h _

theorem runCmd_down_apply (env : Env) (h : clusterDown env) (st : St) (file : String) :
    runCmd env (applyCmdStr st file) = false := by
  have e : applyCmdStr st file = "kubectl" ++ (" apply -f " ++ (file ++ kubeSuffix st)) := by
    unfold applyCmdStr
    rw [show ("kubectl apply -f " : String) = "kubectl" ++ " apply -f " from by decide]
    simp only [String.append_assoc]
  rw [e]; exact h _

theorem runCmd_down_depQuery (env : Env) (h : clusterDown env) (st : St) (name : String) :
    runCmd env (depQueryCmd st name) = false := by
  have e : depQueryCmd st name
      = "kubectl" ++ (" get deployment "
          ++ (name ++ (" -n " ++ (st.ns ++ (" -o json" ++ kubeSuffix st))))) := by
    unfold depQueryCmd
    rw [show ("kubectl get deployment " : String)
      = "kubectl" ++ " get deployment " from by decide]
    simp only [String.append_assoc]
  rw [e]; exact h _

theorem kubectl_append_ne_helm_version (rest : String) :
    ("kubectl" ++ rest) ≠ "helm version" := by
  intro h
  have hd := congrArg String.data h
  rw [String.data_append] at hd
  simp [show ("kubectl" : String).data = ['k', 'u', 'b', 'e', 'c', 't', 'l'] from rfl] at hd

theorem clusterDown_envHelmUp : clusterDown envHelmUp := by
  intro rest
  show (("kubectl" ++ rest) == "helm version") = false
  exact beq_eq_false_iff_ne.mpr (kubectl_append_ne_helm_version rest)

/-- C1 counterexample: with the cluster unreachable, (a) a `deploy`
invocation exits 1 but has already written the workload manifest file, so
"no manifest files are written" fails; and (b) an `install --helm`
invocation with helm already installed exits 0, so "the process exits
with code 1" fails as well. -/
theorem cluster_down_writes_counterexample :
    (clusterDown envDown ∧
      ¬ ((mainRun envDown none "default" (Cmd.deploy "myapp" "nginx" "latest" 1 "100m" "500m"
            "128Mi" "512Mi" [80] none)).1 = 1 ∧
         writesOf (mainRun envDown none "default" (Cmd.deploy "myapp" "nginx" "latest" 1 "100m"
            "500m" "128Mi" "512Mi" [80] none)).2 = [])) ∧
    (clusterDown envHelmUp ∧
      ¬ (mainRun envHelmUp none "default" (Cmd.install true false)).1 = 1) := by
  refine ⟨⟨fun _ => rfl, ?_⟩, clusterDown_envHelmUp, by decide⟩
  rintro ⟨-, hw⟩
  rw [show writesOf (mainRun envDown none "default" (Cmd.deploy "myapp" "nginx" "latest" 1
      "100m" "500m" "128Mi" "512Mi" [80] none)).2
    = [("myapp-deployment.yaml", buildDeployment "default" "myapp" "nginx" "latest" 1 "100m"
        "500m" "128Mi" "512Mi" [80])] from rfl] at hw
  simp at hw

/-- C1 amended: while the cluster connectivity check fails (every kubectl
command fails), `connect` and `status` exit 1 with no manifest I/O,
`install` performs no manifest I/O (no statement about its exit code,
which the counterexample shows can be 0), and `deploy` exits 1 — with no
manifest written when its keda-config file is unreadable, and otherwise
exactly the workload manifest written before the failing apply, no
service or scaled-object manifest. -/
theorem cluster_down_outcome (env : Env) (kubeconfig : Option String) (ns : String)
    (hdown : clusterDown env) :
    mainRun env kubeconfig ns Cmd.connect = (1, []) ∧
    (∀ name, mainRun env kubeconfig ns (Cmd.status name) = (1, [])) ∧
    (∀ helm keda, (mainRun env kubeconfig ns (Cmd.install helm keda)).2 = []) ∧
    (∀ name image tag replicas cpuReq cpuLim memReq memLim ports kcArg,
      mainRun env kubeconfig ns (Cmd.deploy name image tag replicas cpuReq cpuLim memReq memLim
          ports kcArg)
        = (1, match kcArg with
              | some none => []
              | _ => [Event.write (name ++ "-deployment.yaml")
                        (buildDeployment ns name image tag replicas cpuReq cpuLim memReq memLim
                          ports),
                      Event.apply (name ++ "-deployment.yaml") false])) := by
  refine ⟨?_, ?_, ?_, ?_⟩
  · simp [mainRun, connectToCluster, runCmd_down_connect env hdown]
  · intro name
    simp [mainRun, getDeploymentStatus, runCmd_down_depQuery env hdown]
  · intro helm keda
    cases helm <;> cases keda <;> simp only [mainRun] <;> (try split) <;> (try split) <;> rfl
  · intro name image tag replicas cpuReq cpuLim memReq memLim ports kcArg
    have h1 := runCmd_down_apply env hdown (initSt env kubeconfig ns) (name ++ "-deployment.yaml")
    simp only [initSt] at h1
    rcases kcArg with _ | kc2
    · simp [mainRun, createDeployment, h1, initSt]
    · rcases kc2 with _ | kc
      · rfl
      · simp [mainRun, createDeployment, h1, initSt]

/-- Witness for C1 (amended) in the all-failing environment. -/
theorem cluster_down_outcome_witness :
    clusterDown envDown ∧
    (mainRun envDown none "default" Cmd.connect = (1, []) ∧
     (∀ name, mainRun envDown none "default" (Cmd.status name) = (1, [])) ∧
     (∀ helm keda, (mainRun envDown none "default" (Cmd.install helm keda)).2 = []) ∧
     (∀ name image tag replicas cpuReq cpuLim memReq memLim ports kcArg,
       mainRun envDown none "default" (Cmd.deploy name image tag replicas cpuReq cpuLim memReq
           memLim ports kcArg)
         = (1, match kcArg with
               | some none => []
               | _ => [Event.write (name ++ "-deployment.yaml")
                         (buildDeployment "default" name image tag replicas cpuReq cpuLim memReq
                           memLim ports),
                       Event.apply (name ++ "-deployment.yaml") false]))) :=
  ⟨fun _ => rfl, cluster_down_outcome envDown none "default" (fun _ => rfl)⟩

end SimpliSmart
